import Mathlib

/-!
Verification of the portfolio / market-insight backend core.

This file is a shallow embedding, in Lean 4, of the financial core of the
application: the position ledger (`_update_position_from_operation` in
`app/services/portfolio_service.py`), the operation record
(`app/models/operation.py`), the portfolio aggregate
(`Portfolio.calculate_metrics` in `app/models/portfolio.py`), the analysis
cache (`app/repositories/analysis.py`, `app/services/analysis_service.py`)
and the technical-indicator engine
(`ai_module/src/processors/technical_indicators.py`).

Python `Decimal` values are modelled as exact rationals (`ℚ`).  Database
state visible to the claims (the operation log, the position table, the
portfolio snapshot, the analysis cache) is modelled as explicit record
state; each repository call that issues `commit()` corresponds to one
state-to-state step, so a Python exception raised between two commits
leaves the already-committed part of the state in place, exactly as the
SQLAlchemy session does.
-/

/-- `OperationType` from `app/models/operation.py`: BUY or SELL. -/
inductive OperationType where
  | BUY
  | SELL
deriving DecidableEq, Repr

/-- `PortfolioAsset` from `app/models/portfolio.py`: one position of one
asset inside a portfolio (the single-portfolio slice that the claims
mention; `portfolio_id` is dropped because every state below is the state
of one fixed portfolio). -/
structure PortfolioAsset where
  asset_symbol : String
  quantity : ℚ
  average_price : ℚ
  current_price : ℚ
deriving DecidableEq, Repr

/-- `Operation` from `app/models/operation.py` (the financially relevant
columns; `operation_date`, `notes` and the ids carry no information used
by any claim). -/
structure Operation where
  asset_symbol : String
  operation_type : OperationType
  quantity : ℚ
  price : ℚ
  fees : ℚ
  total_amount : ℚ
deriving DecidableEq, Repr

/-- `Operation.calculate_total` from `app/models/operation.py`:
BUY: `quantity * price + fees`; SELL: `quantity * price - fees`. -/
def Operation.calculate_total (op : Operation) : ℚ :=
  if op.operation_type = OperationType.BUY then
    op.quantity * op.price + op.fees
  else
    op.quantity * op.price - op.fees

/-- Python `str.upper()` for the ASCII asset symbols handled here:
upper-case every character.  (Equivalent to `String.toUpper`, but
written through the character list so that concrete instances reduce
inside the kernel.) -/
def pyUpper (s : String) : String := String.mk (s.data.map Char.toUpper)

/-- The caller-supplied arguments of `PortfolioService.add_operation`. -/
structure OperationInput where
  asset_symbol : String
  operation_type : OperationType
  quantity : ℚ
  price : ℚ
  fees : ℚ
deriving DecidableEq, Repr

/-- The `Operation(...)` construction inside
`PortfolioService.add_operation`: the symbol is upper-cased
(`asset_symbol.upper()`) and `total_amount` is set from
`operation.calculate_total()` before the row is saved. -/
def mkOperation (input : OperationInput) : Operation :=
  let base : Operation :=
    { asset_symbol := pyUpper input.asset_symbol
      operation_type := input.operation_type
      quantity := input.quantity
      price := input.price
      fees := input.fees
      total_amount := 0 }
  { base with total_amount := base.calculate_total }

/-- The two `ValueError`s raised by the SELL branch of
`PortfolioService._update_position_from_operation`.  The first one
(`no hay posicion de {symbol} para vender`) carries only the asset
symbol; the second (`cantidad insuficiente: tienes {available},
intentas vender {requested}`) carries the available and the requested
quantity. -/
inductive LedgerError where
  | noPosition (asset_symbol : String)
  | insufficientQuantity (available requested : ℚ)
deriving DecidableEq, Repr

deriving instance DecidableEq for Except

/-- True exactly for the error that carries the available and requested
amounts. -/
def LedgerError.carriesAmounts : LedgerError → Bool
  | LedgerError.insufficientQuantity _ _ => true
  | _ => false

/-- `PortfolioService._update_position_from_operation`
(`app/services/portfolio_service.py`, lines 189-255), as a pure state
transition on the position of `op.asset_symbol`:

* BUY, existing position: weighted average
  `new_avg = (q*avg + op.q*op.price) / (q + op.q)`, `current_price`
  becomes the operation price;
* BUY, no position: a fresh position at the operation price;
* SELL, no position: `ValueError` naming the asset;
* SELL, `position.quantity < op.quantity`: `ValueError` with available
  and requested amounts;
* SELL otherwise: quantity reduced keeping `average_price`; a reduction
  to exactly `0` deletes the position (`delete_position`). -/
def applyOperation (position : Option PortfolioAsset) (op : Operation) :
    Except LedgerError (Option PortfolioAsset) :=
  match op.operation_type with
  | OperationType.BUY =>
    match position with
    | some p =>
        let total_cost := p.quantity * p.average_price + op.quantity * op.price
        let new_quantity := p.quantity + op.quantity
        let new_avg_price := total_cost / new_quantity
        Except.ok (some { asset_symbol := p.asset_symbol
                          quantity := new_quantity
                          average_price := new_avg_price
                          current_price := op.price })
    | none =>
        Except.ok (some { asset_symbol := op.asset_symbol
                          quantity := op.quantity
                          average_price := op.price
                          current_price := op.price })
  | OperationType.SELL =>
    match position with
    | none => Except.error (LedgerError.noPosition op.asset_symbol)
    | some p =>
        if p.quantity < op.quantity then
          Except.error (LedgerError.insufficientQuantity p.quantity op.quantity)
        else
          let new_quantity := p.quantity - op.quantity
          if new_quantity = 0 then
            Except.ok none
          else
            Except.ok (some { asset_symbol := p.asset_symbol
                              quantity := new_quantity
                              average_price := p.average_price
                              current_price := op.price })

/-- Sequentially apply a list of operations to a starting position,
stopping at the first `ValueError` (each call of
`_update_position_from_operation` reads the position the previous call
wrote). -/
def applyOperations (position : Option PortfolioAsset) :
    List Operation → Except LedgerError (Option PortfolioAsset)
  | [] => Except.ok position
  | op :: rest =>
    match applyOperation position op with
    | Except.error e => Except.error e
    | Except.ok p2 => applyOperations p2 rest

/-- A BUY operation as `add_operation` builds it. -/
def mkBuy (symbol : String) (q p f : ℚ) : Operation :=
  mkOperation { asset_symbol := symbol, operation_type := OperationType.BUY
                quantity := q, price := p, fees := f }

/-- A SELL operation as `add_operation` builds it. -/
def mkSell (symbol : String) (q p f : ℚ) : Operation :=
  mkOperation { asset_symbol := symbol, operation_type := OperationType.SELL
                quantity := q, price := p, fees := f }

/-- The portfolio-level metric columns of `Portfolio`
(`app/models/portfolio.py`). -/
structure PortfolioMetrics where
  total_value : ℚ
  total_cost : ℚ
  total_gain_loss : ℚ
  total_gain_loss_percent : ℚ
deriving DecidableEq, Repr

/-- `Portfolio.calculate_metrics` (`app/models/portfolio.py`, lines
77-105): one pass over the positions accumulating
`total_value += quantity * current_price` and
`total_cost += quantity * average_price` for positions with
`quantity > 0`; then `total_gain_loss = total_value - total_cost` and
`total_gain_loss_percent = total_gain_loss / total_cost * 100` when
`total_cost > 0`, else `0`. -/
def calculate_metrics (assets : List PortfolioAsset) : PortfolioMetrics :=
  let sums : ℚ × ℚ :=
    assets.foldl
      (fun acc a =>
        if 0 < a.quantity then
          (acc.1 + a.quantity * a.current_price, acc.2 + a.quantity * a.average_price)
        else acc)
      (0, 0)
  let total_value := sums.1
  let total_cost := sums.2
  let total_gain_loss := total_value - total_cost
  { total_value := total_value
    total_cost := total_cost
    total_gain_loss := total_gain_loss
    total_gain_loss_percent :=
      if 0 < total_cost then total_gain_loss / total_cost * 100 else 0 }

/-- The database state of one portfolio that the claims observe: the
append-only operation log, the position table, and the derived metric
columns.  Each SQLAlchemy `commit()` in the source corresponds to
producing one value of this type. -/
structure DbState where
  operations : List Operation
  positions : List PortfolioAsset
  snapshot : PortfolioMetrics
deriving DecidableEq, Repr

/-- `PortfolioRepository.get_position`: look the position up by asset
symbol (the portfolio id is fixed). -/
def getPosition (positions : List PortfolioAsset) (symbol : String) :
    Option PortfolioAsset :=
  positions.find? (fun p => p.asset_symbol == symbol)

/-- `PortfolioRepository.create_or_update_position` (upsert by symbol)
for `some` and `PortfolioRepository.delete_position` for `none`, the two
persistence calls made by `_update_position_from_operation`. -/
def setPosition (positions : List PortfolioAsset) (symbol : String) :
    Option PortfolioAsset → List PortfolioAsset
  | none => positions.filter (fun p => !(p.asset_symbol == symbol))
  | some q =>
    if positions.any (fun p => p.asset_symbol == symbol) then
      positions.map (fun p => if p.asset_symbol == symbol then q else p)
    else
      positions ++ [q]

/-- `PortfolioService.add_operation`
(`app/services/portfolio_service.py`, lines 138-187).  The source runs
three separately committed steps:

1. `operation_repo.create(operation)` — commits the operation row;
2. `_update_position_from_operation(created_op)` — may raise
   `ValueError`, otherwise commits the position upsert/delete;
3. `portfolio_repo.calculate_portfolio_metrics(portfolio_id)` — commits
   the recomputed snapshot.

A `ValueError` in step 2 propagates to the caller after step 1 has
already committed, so the returned state keeps the appended operation
while positions and snapshot stay as they were. -/
def add_operation (db : DbState) (input : OperationInput) :
    Except LedgerError Operation × DbState :=
  let op := mkOperation input
  let db1 : DbState := { db with operations := db.operations ++ [op] }
  match applyOperation (getPosition db1.positions op.asset_symbol) op with
  | Except.error e => (Except.error e, db1)
  | Except.ok newPos =>
      let positions2 := setPosition db1.positions op.asset_symbol newPos
      (Except.ok op,
       { db1 with positions := positions2
                  snapshot := calculate_metrics positions2 })

/-- `OperationService.get_operations_by_asset` backed by
`OperationRepository.get_by_asset`: both upper-case the symbol and
filter the operation log by it (ordering by date is irrelevant to the
claims and left as the log order). -/
def get_operations_by_asset (db : DbState) (asset_symbol : String) :
    List Operation :=
  db.operations.filter (fun op => op.asset_symbol == pyUpper asset_symbol)

/-- The `Analysis` cache row (`app/models/analysis.py`): an analysis is
either portfolio-scoped (`portfolio_id` set) or asset-scoped
(`asset_symbol` set); `analysis_type` is the kind discriminator the
service writes (`asset_technical` / `portfolio_overview`).  Timestamps
are rationals measured in hours. -/
structure Analysis where
  portfolio_id : Option ℕ
  asset_symbol : Option String
  analysis_type : String
  analysis_text : String
  generated_at : ℚ
  expires_at : ℚ
deriving DecidableEq, Repr

/-- `AnalysisRepository.get_cached_analysis`
(`app/repositories/analysis.py`, lines 19-47): the query always keeps
only non-expired rows (`expires_at > now`) and then conjoins one filter
per supplied argument (`portfolio_id`, upper-cased `asset_symbol`,
`analysis_type`); an omitted argument (`none`, Python falsy) adds no
filter.  `query.first()` becomes `head?`. -/
def get_cached_analysis (entries : List Analysis) (now : ℚ)
    (portfolio_id : Option ℕ) (asset_symbol : Option String)
    (analysis_type : Option String) : Option Analysis :=
  ((((entries.filter (fun a => now < a.expires_at)).filter
      (fun a => match portfolio_id with
                | some pid => a.portfolio_id == some pid
                | none => true)).filter
      (fun a => match asset_symbol with
                | some s => a.asset_symbol == some (pyUpper s)
                | none => true)).filter
      (fun a => match analysis_type with
                | some t => a.analysis_type == t
                | none => true)).head?

/-- The `Analysis(...)` row that `generate_asset_analysis` inserts:
asset-scoped, kind `asset_technical`, `expires_at = now +
CACHE_TTL_HOURS` with `CACHE_TTL_HOURS = 24`. -/
def mkAssetAnalysis (now : ℚ) (symbol : String) (text : String) : Analysis :=
  { portfolio_id := none
    asset_symbol := some symbol
    analysis_type := "asset_technical"
    analysis_text := text
    generated_at := now
    expires_at := now + 24 }

/-- `AnalysisService.generate_asset_analysis`
(`app/services/analysis_service.py`, lines 56-167) restricted to the
cache-visible state (the list of `Analysis` rows).  External
collaborators are oracles: `openai_available` models
`openai_client.is_available()`, and `generated_text` is `some text`
when the market-data fetch and the LLM call both succeed and `none`
otherwise (in every failure branch the source commits only the request
status and inserts no `Analysis` row).  On success the source does
`db.add(analysis)`: it appends a new row and deletes or overwrites
nothing. -/
def generate_asset_analysis (entries : List Analysis) (now : ℚ)
    (symbol : String) (force_regenerate : Bool) (openai_available : Bool)
    (generated_text : Option String) : Option Analysis × List Analysis :=
  let symbolU := pyUpper symbol
  let fresh : Option Analysis × List Analysis :=
    match generated_text with
    | none => (none, entries)
    | some text =>
        let analysis := mkAssetAnalysis now symbolU text
        (some analysis, entries ++ [analysis])
  if openai_available = false then
    (none, entries)
  else if force_regenerate = false then
    match get_cached_analysis entries now none (some symbolU)
        (some "asset_technical") with
    | some cached => (some cached, entries)
    | none => fresh
  else
    fresh

/-- A cache row is counted as a valid asset-analysis entry for `symbol`
when it is non-expired, asset-scoped to `symbol`, and of kind
`asset_technical` (the validity notion of `Analysis.is_expired` plus the
scope key). -/
def countValidAsset (entries : List Analysis) (now : ℚ) (symbol : String) : ℕ :=
  (entries.filter (fun a =>
    decide (now < a.expires_at) && a.asset_symbol == some symbol &&
      a.analysis_type == "asset_technical")).length

/-- The IEEE-754 value classes that the numpy arithmetic inside
`TechnicalIndicators.calculate_rsi` can produce from finite inputs: a
finite value (modelled exactly as a rational), the two infinities, and
NaN.  Division by zero does not raise inside a pandas expression; it
yields `inf`/`-inf`/`nan` by these rules. -/
inductive PyFloat where
  | val (q : ℚ)
  | inf
  | ninf
  | nan
deriving DecidableEq, Repr

/-- IEEE negation. -/
def PyFloat.neg : PyFloat → PyFloat
  | PyFloat.val q => PyFloat.val (-q)
  | PyFloat.inf => PyFloat.ninf
  | PyFloat.ninf => PyFloat.inf
  | PyFloat.nan => PyFloat.nan

/-- IEEE addition (NaN propagates; `inf + (-inf)` is NaN). -/
def PyFloat.add : PyFloat → PyFloat → PyFloat
  | PyFloat.nan, _ => PyFloat.nan
  | _, PyFloat.nan => PyFloat.nan
  | PyFloat.val a, PyFloat.val b => PyFloat.val (a + b)
  | PyFloat.inf, PyFloat.ninf => PyFloat.nan
  | PyFloat.ninf, PyFloat.inf => PyFloat.nan
  | PyFloat.inf, _ => PyFloat.inf
  | _, PyFloat.inf => PyFloat.inf
  | PyFloat.ninf, _ => PyFloat.ninf
  | _, PyFloat.ninf => PyFloat.ninf

/-- IEEE subtraction. -/
def PyFloat.sub (x y : PyFloat) : PyFloat := x.add y.neg

/-- IEEE division for the cases reachable here: finite / 0 is signed
infinity, 0 / 0 is NaN, finite / infinity is 0, NaN propagates. -/
def PyFloat.div : PyFloat → PyFloat → PyFloat
  | PyFloat.nan, _ => PyFloat.nan
  | _, PyFloat.nan => PyFloat.nan
  | PyFloat.val a, PyFloat.val b =>
      if b = 0 then
        if 0 < a then PyFloat.inf
        else if a < 0 then PyFloat.ninf
        else PyFloat.nan
      else PyFloat.val (a / b)
  | PyFloat.val _, PyFloat.inf => PyFloat.val 0
  | PyFloat.val _, PyFloat.ninf => PyFloat.val 0
  | PyFloat.inf, PyFloat.val b => if b < 0 then PyFloat.ninf else PyFloat.inf
  | PyFloat.ninf, PyFloat.val b => if b < 0 then PyFloat.inf else PyFloat.ninf
  | PyFloat.inf, _ => PyFloat.nan
  | PyFloat.ninf, _ => PyFloat.nan

/-- Consecutive differences `series.diff()` of a chronological price
list: entry `i` is `c[i+1] - c[i]` (the leading NaN of pandas `diff` is
dropped; it never falls inside the rolling window used below because the
length precondition puts the window strictly after index 0). -/
def priceDeltas (c : List ℚ) : List ℚ :=
  (c.zip c.tail).map (fun p => p.2 - p.1)

/-- The last `n` elements of a list (the contents of the final rolling
window of pandas `rolling(window=n)`). -/
def lastWindow (n : ℕ) (l : List ℚ) : List ℚ :=
  l.drop (l.length - n)

/-- `TechnicalIndicators.calculate_rsi`
(`ai_module/src/processors/technical_indicators.py`, lines 31-81).
`prices` is most-recent-first and is reversed to chronological order;
gains are `max(delta, 0)`, losses `max(-delta, 0)`; `avg_gain` and
`avg_loss` are the simple means over the final `period`-wide rolling
window; then `rs = avg_gain / avg_loss` and
`rsi = 100 - 100 / (1 + rs)` are evaluated in IEEE float arithmetic
(`PyFloat`), which is where a zero `avg_loss` turns into `inf` or
NaN without raising.  Returns `none` when `len(prices) < period + 1`. -/
def calculate_rsi (prices : List ℚ) (period : ℕ) : Option PyFloat :=
  if prices.length < period + 1 then none
  else
    let chron := prices.reverse
    let window := lastWindow period (priceDeltas chron)
    let gains := window.map (fun d => max d 0)
    let losses := window.map (fun d => max (-d) 0)
    let avg_gain : ℚ := gains.sum / period
    let avg_loss : ℚ := losses.sum / period
    let rs := PyFloat.div (PyFloat.val avg_gain) (PyFloat.val avg_loss)
    some (PyFloat.sub (PyFloat.val 100)
      (PyFloat.div (PyFloat.val 100) (PyFloat.add (PyFloat.val 1) rs)))

/-- The chronological log-returns `np.log(prices / prices.shift(1))` of
`calculate_volatility`: entry `i` is `ln(c[i+1] / c[i])` (the leading
NaN of the shifted division is dropped, matching the NaN-skipping of
pandas `Series.std`). -/
noncomputable def log_returns (c : List ℝ) : List ℝ :=
  (c.zip c.tail).map (fun p => Real.log (p.2 / p.1))

/-- The mean that pandas `Series.std` subtracts. -/
noncomputable def sampleMean (xs : List ℝ) : ℝ := xs.sum / xs.length

/-- The sample variance with `ddof = 1` (the pandas `Series.std`
default): `Σ (x - mean)² / (n - 1)`. -/
noncomputable def sampleVariance (xs : List ℝ) : ℝ :=
  ((xs.map (fun x => (x - sampleMean xs) ^ 2)).sum) / (xs.length - 1)

/-- Pandas `Series.std()` with its default `ddof = 1`. -/
noncomputable def sampleStd (xs : List ℝ) : ℝ :=
  Real.sqrt (sampleVariance xs)

/-- `TechnicalIndicators.calculate_volatility`
(`ai_module/src/processors/technical_indicators.py`, lines 175-209):
`none` when `len(prices) < period + 1`; otherwise the prices
(most-recent-first) are reversed, `returns = log(p / p.shift(1))`,
`volatility = returns.std()` — note: the standard deviation of ALL
returns of the series, no `rolling(window=period)` is applied — and the
result is annualized as `volatility * sqrt(252) * 100`. -/
noncomputable def calculate_volatility (prices : List ℝ) (period : ℕ) :
    Option ℝ :=
  if prices.length < period + 1 then none
  else
    let chron := prices.reverse
    let returns := log_returns chron
    let volatility := sampleStd returns
    some (volatility * Real.sqrt 252 * 100)

/-- Modelled from the claim text of C8 (not from the source): the same
computation but with the standard deviation taken over the window of the
most recent `period` returns only.  Used to compare the source behaviour
against the claimed one. -/
noncomputable def volatilityClaimed (prices : List ℝ) (period : ℕ) :
    Option ℝ :=
  if prices.length < period + 1 then none
  else
    let chron := prices.reverse
    let returns := log_returns chron
    let windowed := returns.drop (returns.length - period)
    some (sampleStd windowed * Real.sqrt 252 * 100)

/-- Concrete scenario of the spec, §8: two BUYs of 10 units at 100 and
120 (with nonzero fees, which must not matter). -/
def demoBuys : List (ℚ × ℚ × ℚ) := [(10, 100, 1), (10, 120, 2)]

/-- Concrete scenario 3 of the spec: positions (qty 10, avg 100,
current 110) and (qty 5, avg 50, current 40). -/
def scenarioAssets : List PortfolioAsset :=
  [{ asset_symbol := "AAA", quantity := 10, average_price := 100, current_price := 110 },
   { asset_symbol := "BBB", quantity := 5, average_price := 50, current_price := 40 }]

/-- An asset-kind cache row for AAPL written at hour 0 with the default
24-hour TTL. -/
def aaplEntry : Analysis :=
  { portfolio_id := none, asset_symbol := some "AAPL"
    analysis_type := "asset_technical", analysis_text := "narrative"
    generated_at := 0, expires_at := 24 }

/-- An unexpired cached AAPL analysis, used as the pre-state of the
regeneration counterexample. -/
def cachedAapl : Analysis :=
  { portfolio_id := none, asset_symbol := some "AAPL"
    analysis_type := "asset_technical", analysis_text := "old"
    generated_at := 0, expires_at := 24 }

/-- The empty portfolio database. -/
def dbEmpty : DbState :=
  { operations := [], positions := []
    snapshot := { total_value := 0, total_cost := 0, total_gain_loss := 0
                  total_gain_loss_percent := 0 } }

/-- A SELL of 5 units of aapl (lower case on purpose) against a
portfolio holding nothing. -/
def sellNoPositionInput : OperationInput :=
  { asset_symbol := "aapl", operation_type := OperationType.SELL
    quantity := 5, price := 10, fees := 0 }

/-- A 32-bar price series, most-recent-first: thirty-one closes at 2
preceded (chronologically) by one close at 1.  Its chronological
log-returns are `ln 2` followed by thirty zeros; the most recent 30
returns are all zero. -/
noncomputable def cexPrices : List ℝ := List.replicate 31 2 ++ [1]

/- ------------------------------------------------------------------ -/
/- Helper lemmas                                                      -/
/- ------------------------------------------------------------------ -/

/-- Folding BUYs over an existing position accumulates quantity and
keeps the weighted-average invariant: starting from quantity `Q` and
average `A`, a buy list with quantities and prices `x.1, x.2.1` lands on
quantity `Q + Σ qᵢ` and average `(Q·A + Σ qᵢ·pᵢ) / (Q + Σ qᵢ)`. -/
theorem applyOperations_buy_acc (psym sym : String) :
    ∀ (ops : List (ℚ × ℚ × ℚ)) (Q A cp : ℚ), 0 < Q →
      (∀ x ∈ ops, 0 < x.1) →
      ∃ pos : PortfolioAsset,
        applyOperations
            (some { asset_symbol := psym, quantity := Q, average_price := A
                    current_price := cp })
            (ops.map (fun x => mkBuy sym x.1 x.2.1 x.2.2)) =
          Except.ok (some pos) ∧
        pos.quantity = Q + (ops.map (fun x => x.1)).sum ∧
        pos.average_price =
          (Q * A + (ops.map (fun x => x.1 * x.2.1)).sum) /
            (Q + (ops.map (fun x => x.1)).sum) := by
  intro ops
  induction ops with
  | nil =>
      intro Q A cp hQ _
      refine ⟨_, rfl, by simp, ?_⟩
      have hQ0 : Q ≠ 0 := ne_of_gt hQ
      simp [mul_div_cancel_left₀ _ hQ0]
  | cons x rest ih =>
      intro Q A cp hQ hpos
      obtain ⟨q, p, f⟩ := x
      have hq : 0 < q := hpos (q, p, f) (List.mem_cons_self _ _)
      have hrest : ∀ y ∈ rest, 0 < y.1 :=
        fun y hy => hpos y (List.mem_cons_of_mem _ hy)
      have hQq : 0 < Q + q := by linarith
      obtain ⟨pos, hrun, hquant, havg⟩ :=
        ih (Q + q) ((Q * A + q * p) / (Q + q)) p hQq hrest
      refine ⟨pos, ?_, ?_, ?_⟩
      · have hstep :
            applyOperation
                (some { asset_symbol := psym, quantity := Q, average_price := A
                        current_price := cp })
                (mkBuy sym q p f) =
              Except.ok (some { asset_symbol := psym, quantity := Q + q
                                average_price := (Q * A + q * p) / (Q + q)
                                current_price := p }) := rfl
        simpa [applyOperations, hstep] using hrun
      · simp only [List.map_cons, List.sum_cons]
        rw [hquant]; ring
      · simp only [List.map_cons, List.sum_cons]
        rw [havg]
        have h1 : (Q + q) * ((Q * A + q * p) / (Q + q)) = Q * A + q * p := by
          field_simp
        rw [h1]
        congr 1 <;> ring

/-- The accumulation loop of `Portfolio.calculate_metrics` equals the
sum of `quantity * current_price` (resp. `quantity * average_price`)
over the positions with positive quantity. -/
theorem metrics_fold (l : List PortfolioAsset) :
    ∀ v c : ℚ,
      l.foldl
          (fun acc a =>
            if 0 < a.quantity then
              (acc.1 + a.quantity * a.current_price,
               acc.2 + a.quantity * a.average_price)
            else acc) (v, c) =
        (v + ((l.filter (fun a => decide (0 < a.quantity))).map
            (fun a => a.quantity * a.current_price)).sum,
         c + ((l.filter (fun a => decide (0 < a.quantity))).map
            (fun a => a.quantity * a.average_price)).sum) := by
  induction l with
  | nil => intro v c; simp
  | cons a t ih =>
      intro v c
      by_cases h : 0 < a.quantity
      · simp only [List.foldl_cons, if_pos h, List.filter_cons, h,
          decide_true_eq_true, decide_eq_true_eq, if_true, List.map_cons,
          List.sum_cons, ih]
        simp only [Prod.mk.injEq]
        exact ⟨by ring, by ring⟩
      · simp only [List.foldl_cons, if_neg h, List.filter_cons,
          decide_eq_true_eq, h, if_false, ih]

/-- Unfolding step of `priceDeltas` on two leading elements. -/
theorem priceDeltas_cons (a b : ℚ) (l : List ℚ) :
    priceDeltas (a :: b :: l) = (b - a) :: priceDeltas (b :: l) := rfl

/-- `priceDeltas` of a one-element list is empty. -/
theorem priceDeltas_single (a : ℚ) : priceDeltas [a] = [] := rfl

/-- The deltas of a constant series are all zero. -/
theorem priceDeltas_replicate (n : ℕ) (a : ℚ) :
    priceDeltas (List.replicate (n + 1) a) = List.replicate n 0 := by
  induction n with
  | zero => rfl
  | succ k ih =>
      have h2 : List.replicate (k + 2) a = a :: a :: List.replicate k a := rfl
      have h1 : List.replicate (k + 1) a = a :: List.replicate k a := rfl
      rw [h2, priceDeltas_cons, ← h1, ih, sub_self]
      rfl

/-- Unfolding step of `log_returns` on two leading elements. -/
theorem log_returns_cons (a b : ℝ) (l : List ℝ) :
    log_returns (a :: b :: l) = Real.log (b / a) :: log_returns (b :: l) :=
  rfl

/-- The log-returns of a constant series at 2 are all zero. -/
theorem log_returns_replicate (n : ℕ) :
    log_returns (List.replicate (n + 1) (2:ℝ)) = List.replicate n 0 := by
  induction n with
  | zero => rfl
  | succ k ih =>
      have h2 : List.replicate (k + 2) (2:ℝ) = 2 :: 2 :: List.replicate k 2 :=
        rfl
      have h1 : List.replicate (k + 1) (2:ℝ) = 2 :: List.replicate k 2 := rfl
      rw [h2, log_returns_cons, ← h1, ih]
      have hlog : Real.log ((2:ℝ) / 2) = 0 := by
        rw [div_self (by norm_num : (2:ℝ) ≠ 0)]
        exact Real.log_one
      rw [hlog]
      rfl

/-- The chronological log-returns of the counterexample series: one
`ln 2` jump followed by thirty flat returns. -/
theorem cex_returns :
    log_returns cexPrices.reverse = Real.log 2 :: List.replicate 30 0 := by
  have hrev : cexPrices.reverse = (1:ℝ) :: List.replicate 31 2 := by
    simp [cexPrices]
  rw [hrev,
    show ((1:ℝ) :: List.replicate 31 2) = 1 :: 2 :: List.replicate 30 2
      from rfl,
    log_returns_cons,
    show ((2:ℝ) :: List.replicate 30 2) = List.replicate (30 + 1) 2
      from rfl,
    log_returns_replicate]
  norm_num

/-- The sample variance of an all-zero window vanishes. -/
theorem sampleVariance_replicate_zero (n : ℕ) :
    sampleVariance (List.replicate n (0:ℝ)) = 0 := by
  simp [sampleVariance, sampleMean]

/-- The sample variance of the counterexample's full return list is
strictly positive (one return is `ln 2 ≠ 0`). -/
theorem sampleVariance_cex_pos :
    0 < sampleVariance (Real.log 2 :: List.replicate 30 (0:ℝ)) := by
  have hL : 0 < Real.log 2 := Real.log_pos (by norm_num)
  simp only [sampleVariance, sampleMean, List.sum_cons, List.sum_replicate,
    smul_zero, add_zero, List.length_cons, List.length_replicate,
    List.map_cons, List.map_replicate]
  apply div_pos
  · have hm : Real.log 2 / 31 < Real.log 2 :=
      div_lt_self hL (by norm_num)
    have h1 : 0 < Real.log 2 - Real.log 2 / (30 + 1) := by
      linarith
    have h2 : (0:ℝ) ≤ 30 • ((0 - Real.log 2 / (30 + 1)) ^ 2) := by
      positivity
    nlinarith [pow_pos h1 2]
  · norm_num

/-- Whatever the outcome of the position update, `add_operation` has
already appended exactly the operation it built (the commit of
`operation_repo.create`). -/
theorem add_operation_log (db : DbState) (input : OperationInput) :
    (add_operation db input).2.operations =
      db.operations ++ [mkOperation input] := by
  cases happ : applyOperation
      (getPosition db.positions (mkOperation input).asset_symbol)
      (mkOperation input) with
  | error e => simp [add_operation, happ]
  | ok newPos => simp [add_operation, happ]

/- ------------------------------------------------------------------ -/
/- Claims                                                             -/
/- ------------------------------------------------------------------ -/

/-- C1: any nonempty sequence of BUYs with positive quantities, applied
through `_update_position_from_operation` to an initially empty
position, yields quantity `Σ qᵢ` and average price `(Σ qᵢ·pᵢ)/(Σ qᵢ)`;
the fees (third component of each triple) are arbitrary and do not
appear in the result, so they do not alter the average price. -/
theorem c1_buy_weighted_average (sym : String) (ops : List (ℚ × ℚ × ℚ))
    (hne : ops ≠ []) (hpos : ∀ x ∈ ops, 0 < x.1) :
    ∃ pos : PortfolioAsset,
      applyOperations none (ops.map (fun x => mkBuy sym x.1 x.2.1 x.2.2)) =
        Except.ok (some pos) ∧
      pos.quantity = (ops.map (fun x => x.1)).sum ∧
      pos.average_price =
        (ops.map (fun x => x.1 * x.2.1)).sum / (ops.map (fun x => x.1)).sum := by
  match ops, hne with
  | (q, p, f) :: rest, _ =>
    have hq : 0 < q := hpos (q, p, f) (List.mem_cons_self _ _)
    have hrest : ∀ y ∈ rest, 0 < y.1 :=
      fun y hy => hpos y (List.mem_cons_of_mem _ hy)
    obtain ⟨pos, hrun, hquant, havg⟩ :=
      applyOperations_buy_acc (pyUpper sym) sym rest q p p hq hrest
    refine ⟨pos, ?_, ?_, ?_⟩
    · have hstep :
          applyOperation none (mkBuy sym q p f) =
            Except.ok (some { asset_symbol := pyUpper sym, quantity := q
                              average_price := p, current_price := p }) := rfl
      simpa [applyOperations, hstep] using hrun
    · simpa using hquant
    · simp only [List.map_cons, List.sum_cons]
      rw [havg]

/-- Witness for C1 at the spec scenario: BUY 10 @ 100 (fee 1), BUY
10 @ 120 (fee 2) ends at quantity 20 and average price 110 =
(10·100 + 10·120)/20. -/
theorem c1_buy_weighted_average_witness :
    demoBuys ≠ [] ∧ (∀ x ∈ demoBuys, 0 < x.1) ∧
    (∃ pos : PortfolioAsset,
      applyOperations none
          (demoBuys.map (fun x => mkBuy "AAPL" x.1 x.2.1 x.2.2)) =
        Except.ok (some pos) ∧
      pos.quantity = (demoBuys.map (fun x => x.1)).sum ∧
      pos.average_price =
        (demoBuys.map (fun x => x.1 * x.2.1)).sum /
          (demoBuys.map (fun x => x.1)).sum) :=
  ⟨by decide, by decide,
   c1_buy_weighted_average "AAPL" demoBuys (by decide) (by decide)⟩

/-- C2, counterexample to the claim as stated: a SELL against a missing
position raises `ValueError("no hay posicion de AAPL para vender")`,
an error that names the asset but does not carry the available and
requested amounts the claim promises for this case. -/
theorem c2_counterexample :
    applyOperation none (mkSell "AAPL" 5 10 0) =
      Except.error (LedgerError.noPosition "AAPL") ∧
    (LedgerError.noPosition "AAPL").carriesAmounts = false :=
  ⟨by decide, rfl⟩

/-- C2 amended: a SELL against a missing position fails with the
no-position error naming the asset (without amounts); a SELL of more
than the held quantity fails with the insufficient-quantity error
carrying available and requested amounts; a SELL of strictly less than
the held quantity reduces the quantity and keeps `average_price`; a
SELL of exactly the held quantity closes (removes) the position.  A
failing SELL returns an error without producing any position update. -/
theorem c2_sell_semantics (p : PortfolioAsset) (op : Operation)
    (ht : op.operation_type = OperationType.SELL) :
    applyOperation none op =
      Except.error (LedgerError.noPosition op.asset_symbol) ∧
    (p.quantity < op.quantity →
      applyOperation (some p) op =
        Except.error (LedgerError.insufficientQuantity p.quantity op.quantity)) ∧
    (op.quantity < p.quantity →
      applyOperation (some p) op =
        Except.ok (some { asset_symbol := p.asset_symbol
                          quantity := p.quantity - op.quantity
                          average_price := p.average_price
                          current_price := op.price })) ∧
    (op.quantity = p.quantity → applyOperation (some p) op = Except.ok none) := by
  refine ⟨?_, ?_, ?_, ?_⟩
  · simp [applyOperation, ht]
  · intro hlt
    simp [applyOperation, ht, hlt]
  · intro hlt
    have hnlt : ¬ p.quantity < op.quantity := not_lt_of_gt hlt
    have hne : p.quantity - op.quantity ≠ 0 := sub_ne_zero_of_ne (ne_of_gt hlt)
    simp [applyOperation, ht, hnlt, hne]
  · intro heq
    have hnlt : ¬ p.quantity < op.quantity := by rw [heq]; exact lt_irrefl _
    have hzero : p.quantity - op.quantity = 0 := by rw [heq]; ring
    simp [applyOperation, ht, hnlt, hzero]

/-- C3: `Portfolio.calculate_metrics` sums value (`quantity *
current_price`) and cost (`quantity * average_price`) over positions
with positive quantity only, sets `total_gain_loss = total_value -
total_cost`, sets the percentage to `gain_loss / total_cost * 100` when
`total_cost > 0` and to `0` otherwise; and on the spec scenario
(qty 10, avg 100, current 110) and (qty 5, avg 50, current 40) it yields
exactly (1300, 1250, 50, 4). -/
theorem c3_portfolio_snapshot :
    (∀ assets : List PortfolioAsset,
      (calculate_metrics assets).total_value =
        ((assets.filter (fun a => decide (0 < a.quantity))).map
          (fun a => a.quantity * a.current_price)).sum ∧
      (calculate_metrics assets).total_cost =
        ((assets.filter (fun a => decide (0 < a.quantity))).map
          (fun a => a.quantity * a.average_price)).sum ∧
      (calculate_metrics assets).total_gain_loss =
        (calculate_metrics assets).total_value -
          (calculate_metrics assets).total_cost ∧
      (0 < (calculate_metrics assets).total_cost →
        (calculate_metrics assets).total_gain_loss_percent =
          (calculate_metrics assets).total_gain_loss /
            (calculate_metrics assets).total_cost * 100) ∧
      (¬ 0 < (calculate_metrics assets).total_cost →
        (calculate_metrics assets).total_gain_loss_percent = 0)) ∧
    calculate_metrics scenarioAssets =
      { total_value := 1300, total_cost := 1250, total_gain_loss := 50
        total_gain_loss_percent := 4 } := by
  constructor
  · intro assets
    have hf := metrics_fold assets 0 0
    simp only [calculate_metrics, hf, zero_add]
    refine ⟨trivial, trivial, trivial, fun h => ?_, fun h => ?_⟩
    · simp only [if_pos h]
    · simp only [if_neg h]
  · norm_num [calculate_metrics, scenarioAssets, PortfolioMetrics.mk.injEq]

/-- Witness for C3: on the spec scenario the cost is positive and the
percentage column indeed equals `gain_loss / cost * 100` (= 4). -/
theorem c3_portfolio_snapshot_witness :
    0 < (calculate_metrics scenarioAssets).total_cost ∧
    (calculate_metrics scenarioAssets).total_gain_loss_percent =
      (calculate_metrics scenarioAssets).total_gain_loss /
        (calculate_metrics scenarioAssets).total_cost * 100 := by
  have hcost : 0 < (calculate_metrics scenarioAssets).total_cost := by
    norm_num [calculate_metrics, scenarioAssets]
  exact ⟨hcost, (c3_portfolio_snapshot.1 scenarioAssets).2.2.2.1 hcost⟩

/-- C4: a cache hit of `get_cached_analysis` is always a stored entry
that is non-expired (`now < expires_at`) and matches every supplied
filter — in particular the kind (`analysis_type`) and the id
(upper-cased `asset_symbol`, resp. `portfolio_id`).  On the spec
scenario: with an asset-kind AAPL entry stored, a portfolio-kind lookup
for AAPL misses, the asset-kind lookup hits, and the same asset-kind
lookup after `expires_at` has passed misses. -/
theorem c4_cache_lookup_scope :
    (∀ (entries : List Analysis) (now : ℚ) (pid : Option ℕ)
        (s t : Option String) (e : Analysis),
      get_cached_analysis entries now pid s t = some e →
        e ∈ entries ∧ now < e.expires_at ∧
        (∀ ty, t = some ty → e.analysis_type = ty) ∧
        (∀ sym, s = some sym → e.asset_symbol = some (pyUpper sym)) ∧
        (∀ i, pid = some i → e.portfolio_id = some i)) ∧
    get_cached_analysis [aaplEntry] 0 none (some "AAPL")
      (some "portfolio_overview") = none ∧
    get_cached_analysis [aaplEntry] 0 none (some "AAPL")
      (some "asset_technical") = some aaplEntry ∧
    get_cached_analysis [aaplEntry] 25 none (some "AAPL")
      (some "asset_technical") = none := by
  refine ⟨?_, by decide, by decide, by decide⟩
  intro entries now pid s t e h
  unfold get_cached_analysis at h
  have hm := List.mem_of_mem_head? (Option.mem_def.mpr h)
  rw [List.mem_filter] at hm
  obtain ⟨hm3, h4⟩ := hm
  rw [List.mem_filter] at hm3
  obtain ⟨hm2, h3⟩ := hm3
  rw [List.mem_filter] at hm2
  obtain ⟨hm1, h2⟩ := hm2
  rw [List.mem_filter] at hm1
  obtain ⟨hmem, h1⟩ := hm1
  refine ⟨hmem, of_decide_eq_true h1, ?_, ?_, ?_⟩
  · intro ty hty; subst hty; simpa using h4
  · intro sym hsym; subst hsym; simpa using h3
  · intro i hi; subst hi; simpa using h2

/-- C5, counterexample to the claim as stated: with an unexpired AAPL
asset entry cached (1 valid entry at hour 1), regenerating via
`generate_asset_analysis(force_regenerate=True)` inserts a second row
(`db.add(analysis)`) without overwriting or deleting the first, leaving
TWO valid entries for the same (kind, id). -/
theorem c5_counterexample :
    countValidAsset [cachedAapl] 1 "AAPL" = 1 ∧
    (generate_asset_analysis [cachedAapl] 1 "AAPL" true true
        (some "fresh")).2 =
      [cachedAapl, mkAssetAnalysis 1 "AAPL" "fresh"] ∧
    countValidAsset [cachedAapl, mkAssetAnalysis 1 "AAPL" "fresh"] 1 "AAPL" =
      2 := by
  have hup : pyUpper "AAPL" = "AAPL" := by decide
  refine ⟨by decide, ?_, ?_⟩
  · simp [generate_asset_analysis, hup]
  · have h24 : (1:ℚ) < 1 + 24 := by norm_num
    simp [countValidAsset, mkAssetAnalysis, cachedAapl, List.filter, h24]

/-- C5 amended: the cache-write path appends; a regeneration forced
while an unexpired entry exists returns a fresh entry and leaves both
the old and the new row in the store (no overwrite), while a
non-forced call that hits a valid cached entry returns it and adds
nothing. -/
theorem c5_cache_regeneration_amended (entries : List Analysis) (now : ℚ)
    (symbol text : String) :
    (∀ c, get_cached_analysis entries now none (some (pyUpper symbol))
        (some "asset_technical") = some c →
      generate_asset_analysis entries now symbol false true (some text) =
        (some c, entries)) ∧
    generate_asset_analysis entries now symbol true true (some text) =
      (some (mkAssetAnalysis now (pyUpper symbol) text),
       entries ++ [mkAssetAnalysis now (pyUpper symbol) text]) := by
  constructor
  · intro c hc
    simp [generate_asset_analysis, hc]
  · simp [generate_asset_analysis]

/-- Witness for C5 (amended): at the concrete cached state, the
non-forced call returns the cached entry and leaves the store
unchanged. -/
theorem c5_cache_regeneration_amended_witness :
    generate_asset_analysis [cachedAapl] 1 "AAPL" false true (some "fresh") =
      (some cachedAapl, [cachedAapl]) :=
  (c5_cache_regeneration_amended [cachedAapl] 1 "AAPL" "fresh").1 cachedAapl
    (by decide)

/-- C6: the operation row is committed by `operation_repo.create`
before `_update_position_from_operation` validates the SELL, so when
the position update raises, `add_operation` fails *after* the log has
durably grown: the rejected SELL of 5 aapl stays in `operations` while
positions and snapshot are untouched — the unit is not rolled back. -/
theorem c6_no_atomic_rollback :
    (add_operation dbEmpty sellNoPositionInput).1 =
      Except.error (LedgerError.noPosition "AAPL") ∧
    (add_operation dbEmpty sellNoPositionInput).2.operations =
      [mkOperation sellNoPositionInput] ∧
    (add_operation dbEmpty sellNoPositionInput).2.positions =
      dbEmpty.positions ∧
    (add_operation dbEmpty sellNoPositionInput).2.snapshot =
      dbEmpty.snapshot := by
  have hup : pyUpper "aapl" = "AAPL" := by decide
  refine ⟨?_, ?_, ?_, ?_⟩ <;>
    simp [add_operation, dbEmpty, sellNoPositionInput, mkOperation,
      getPosition, applyOperation, hup]

/-- C7: on a flat 15-bar window both rolling averages are zero, numpy
evaluates `rs = 0/0 = NaN` and the returned RSI is NaN — not the
claimed neutral 50 (and not inside the documented 0..100 range);
whereas with zero average loss and positive average gain the IEEE
arithmetic does return exactly 100 as claimed. -/
theorem c7_rsi_division_guard :
    calculate_rsi (List.replicate 15 100) 14 = some PyFloat.nan ∧
    calculate_rsi (List.replicate 14 2 ++ [1]) 14 =
      some (PyFloat.val 100) := by
  constructor
  · have hd : priceDeltas (List.replicate 15 (100:ℚ)) =
        List.replicate 14 0 := priceDeltas_replicate 14 100
    unfold calculate_rsi
    rw [if_neg (by norm_num)]
    simp only [List.reverse_replicate, hd, lastWindow,
      List.length_replicate, Nat.sub_self, List.drop_zero,
      List.map_replicate, max_self, neg_zero, List.sum_replicate,
      smul_zero, zero_div]
    norm_num [PyFloat.div, PyFloat.add, PyFloat.sub, PyFloat.neg]
  · have hd : priceDeltas ((1:ℚ) :: List.replicate 14 2) =
        1 :: List.replicate 13 0 := by
      have h2 : (1:ℚ) :: List.replicate 14 2 =
          1 :: 2 :: List.replicate 13 2 := rfl
      rw [h2, priceDeltas_cons,
        show ((2:ℚ) :: List.replicate 13 2) = List.replicate (13 + 1) 2
          from rfl,
        priceDeltas_replicate]
      norm_num
    have hrev : (List.replicate 14 (2:ℚ) ++ [1]).reverse =
        (1:ℚ) :: List.replicate 14 2 := by simp
    have hmax1 : max (1:ℚ) 0 = 1 := max_eq_left (by norm_num)
    have hmax2 : max (-1:ℚ) 0 = 0 := max_eq_right (by norm_num)
    unfold calculate_rsi
    rw [if_neg (by simp)]
    simp only [hrev, hd, lastWindow, List.length_cons,
      List.length_replicate, List.map_cons, List.map_replicate,
      List.sum_cons, List.sum_replicate, max_self, neg_zero, smul_zero,
      hmax1, hmax2]
    norm_num [PyFloat.div, PyFloat.add, PyFloat.sub, PyFloat.neg]

/-- C8, counterexample to the claim as stated: on a 32-bar series whose
only price move lies just outside the most recent 30 returns, the
claimed windowed computation gives volatility 0 while
`calculate_volatility` (which takes the standard deviation of ALL
returns; `period` only gates the length check) gives a strictly
positive value. -/
theorem c8_counterexample :
    calculate_volatility cexPrices 30 ≠ volatilityClaimed cexPrices 30 := by
  have hlen : ¬ cexPrices.length < 30 + 1 := by simp [cexPrices]
  unfold calculate_volatility volatilityClaimed
  rw [if_neg hlen, if_neg hlen]
  simp only [cex_returns, List.length_cons, List.length_replicate]
  rw [show (30 + 1 - 30 : ℕ) = 1 from rfl]
  rw [show (Real.log 2 :: List.replicate 30 (0:ℝ)).drop 1 =
      List.replicate 30 0 from rfl]
  intro h
  have h2 := Option.some.inj h
  have hpos : 0 < sampleStd (Real.log 2 :: List.replicate 30 (0:ℝ)) *
      Real.sqrt 252 * 100 := by
    apply mul_pos (mul_pos _ _) (by norm_num)
    · exact Real.sqrt_pos.mpr sampleVariance_cex_pos
    · exact Real.sqrt_pos.mpr (by norm_num)
  have hzero : sampleStd (List.replicate 30 (0:ℝ)) * Real.sqrt 252 * 100 =
      0 := by
    rw [sampleStd, sampleVariance_replicate_zero, Real.sqrt_zero]
    ring
  rw [hzero] at h2
  exact absurd h2 (ne_of_gt hpos)

/-- C8 amended: `calculate_volatility` is unavailable exactly when the
series is shorter than `period + 1`; otherwise it returns the
annualized (`× sqrt 252 × 100`) sample standard deviation of the
log-returns of the WHOLE series — consequently the returned value does
not depend on `period` at all once the length requirement is met. -/
theorem c8_volatility_amended (prices : List ℝ) (p1 p2 : ℕ) :
    (prices.length < p1 + 1 → calculate_volatility prices p1 = none) ∧
    (¬ prices.length < p1 + 1 →
      calculate_volatility prices p1 =
        some (sampleStd (log_returns prices.reverse) *
          Real.sqrt 252 * 100)) ∧
    (¬ prices.length < p1 + 1 → ¬ prices.length < p2 + 1 →
      calculate_volatility prices p1 = calculate_volatility prices p2) := by
  refine ⟨fun h => ?_, fun h => ?_, fun h1 h2 => ?_⟩
  · unfold calculate_volatility
    rw [if_pos h]
  · unfold calculate_volatility
    rw [if_neg h]
  · unfold calculate_volatility
    rw [if_neg h1, if_neg h2]

/-- Witness for C8 (amended): a 3-bar series meets the length
requirement for periods 1 and 2 and gets the same volatility for
both. -/
theorem c8_volatility_amended_witness :
    ¬ ([(1:ℝ), 2, 4].length < 1 + 1) ∧ ¬ ([(1:ℝ), 2, 4].length < 2 + 1) ∧
    calculate_volatility [(1:ℝ), 2, 4] 1 =
      calculate_volatility [(1:ℝ), 2, 4] 2 := by
  refine ⟨by norm_num, by norm_num, ?_⟩
  exact (c8_volatility_amended [(1:ℝ), 2, 4] 1 2).2.2 (by norm_num)
    (by norm_num)

/-- C9: `add_operation` appends exactly the operation it builds, whose
`total_amount` is fixed by `Operation.calculate_total` at creation:
`quantity * price + fees` for a BUY and `quantity * price - fees` for a
SELL. -/
theorem c9_total_amount (db : DbState) (input : OperationInput) :
    (add_operation db input).2.operations =
      db.operations ++ [mkOperation input] ∧
    (mkOperation input).total_amount =
      (if input.operation_type = OperationType.BUY then
        input.quantity * input.price + input.fees
      else input.quantity * input.price - input.fees) := by
  constructor
  · exact add_operation_log db input
  · rcases input with ⟨s, ty, q, p, f⟩
    cases ty <;> simp [mkOperation, Operation.calculate_total]

/-- C10: the entry points normalize the asset symbol to upper case, so
two spellings with the same upper-casing produce the same stored
symbol, the same per-asset operation query, and the same cache lookup;
in particular an operation stored under one spelling is returned by the
per-asset query under the other. -/
theorem c10_symbol_case_insensitive (s1 s2 : String)
    (h : pyUpper s1 = pyUpper s2) (db : DbState) (entries : List Analysis)
    (now : ℚ) (ty : OperationType) (q p f : ℚ) :
    (mkOperation ⟨s1, ty, q, p, f⟩).asset_symbol =
      (mkOperation ⟨s2, ty, q, p, f⟩).asset_symbol ∧
    get_operations_by_asset db s1 = get_operations_by_asset db s2 ∧
    get_cached_analysis entries now none (some s1) (some "asset_technical") =
      get_cached_analysis entries now none (some s2)
        (some "asset_technical") ∧
    mkOperation ⟨s1, ty, q, p, f⟩ ∈
      get_operations_by_asset (add_operation db ⟨s1, ty, q, p, f⟩).2 s2 := by
  refine ⟨?_, ?_, ?_, ?_⟩
  · simp [mkOperation, h]
  · simp [get_operations_by_asset, h]
  · simp [get_cached_analysis, h]
  · unfold get_operations_by_asset
    rw [add_operation_log db ⟨s1, ty, q, p, f⟩]
    simp [List.mem_filter, mkOperation, h]

/-- Witness for C10: aapl and AaPl agree after upper-casing, query the
same history, and a BUY recorded under aapl is found when querying
AaPl. -/
theorem c10_symbol_case_insensitive_witness :
    pyUpper "aapl" = pyUpper "AaPl" ∧
    get_operations_by_asset dbEmpty "aapl" =
      get_operations_by_asset dbEmpty "AaPl" ∧
    mkOperation ⟨"aapl", OperationType.BUY, 1, 1, 0⟩ ∈
      get_operations_by_asset
        (add_operation dbEmpty ⟨"aapl", OperationType.BUY, 1, 1, 0⟩).2
        "AaPl" := by
  have h : pyUpper "aapl" = pyUpper "AaPl" := by decide
  have hc := c10_symbol_case_insensitive "aapl" "AaPl" h dbEmpty [] 0
    OperationType.BUY 1 1 0
  exact ⟨h, hc.2.1, hc.2.2.2⟩

/-- Witness for C4: the hit of the asset-kind scenario lookup is the
stored entry, unexpired, of the asset kind and with the upper-cased
symbol. -/
theorem c4_cache_lookup_scope_witness :
    aaplEntry ∈ [aaplEntry] ∧ (0:ℚ) < aaplEntry.expires_at ∧
    aaplEntry.analysis_type = "asset_technical" ∧
    aaplEntry.asset_symbol = some (pyUpper "AAPL") := by
  have h := c4_cache_lookup_scope.1 [aaplEntry] 0 none (some "AAPL")
    (some "asset_technical") aaplEntry (by decide)
  exact ⟨h.1, h.2.1, h.2.2.1 _ rfl, h.2.2.2.1 _ rfl⟩

/-- Witness for C2 at the spec scenario: holding 20 @ avg 110, SELL 15
@ 130 leaves quantity 5 at the unchanged average price 110 (and the
execution price becomes the current price). -/
theorem c2_sell_semantics_witness :
    (mkSell "AAPL" 15 130 0).operation_type = OperationType.SELL ∧
    (mkSell "AAPL" 15 130 0).quantity <
      (PortfolioAsset.mk "AAPL" 20 110 120).quantity ∧
    applyOperation (some (PortfolioAsset.mk "AAPL" 20 110 120))
        (mkSell "AAPL" 15 130 0) =
      Except.ok (some (PortfolioAsset.mk "AAPL" 5 110 130)) := by
  refine ⟨rfl, by decide, ?_⟩
  have h :=
    (c2_sell_semantics (PortfolioAsset.mk "AAPL" 20 110 120)
      (mkSell "AAPL" 15 130 0) rfl).2.2.1 (by decide)
  rw [h]
  norm_num [mkSell, mkOperation]
